import Mathlib

/-!
Shallow embedding of bionic's locale subsystem (libc/bionic/locale.cpp) and
proofs about it.

Modelling conventions:
- C strings are Lean `String`s (valid C strings contain no interior NUL, so
  this is exact); a possibly-NULL `const char*` is an `Option String`.
- `locale_t` values are modelled by `Loc`: `Loc.null` is the NULL pointer,
  `Loc.global` is the `LC_GLOBAL_LOCALE` sentinel, and `Loc.handle w` is a
  heap-allocated `__locale_t` whose `mb_cur_max` field is `w`.
- The process-wide flag `__bionic_current_locale_is_utf8` is a `Bool` passed
  and returned explicitly.
- `errno` reporting is folded into an `Except Errno` result.
- C `int` category masks are modelled by their 32-bit unsigned bit pattern as
  a `Nat` (bitwise `&` on two's-complement ints acts on exactly that pattern).
-/

/-- The errno values the locale code can set. -/
inductive Errno where
  | EINVAL : Errno
  | ENOENT : Errno
deriving DecidableEq, Repr

deriving instance DecidableEq for Except

/-- A `locale_t` value: the NULL pointer, the `LC_GLOBAL_LOCALE` sentinel, or a
real `__locale_t` object whose only field is `mb_cur_max`. -/
inductive Loc where
  | null : Loc
  | global : Loc
  | handle (mb_cur_max : Nat) : Loc
deriving DecidableEq, Repr

/-- Modelled from the spec: the category constants come from the repository's
`locale.h` header, which is not among the shown sources; bionic uses the
glibc-compatible numbering in which `LC_CTYPE` is the smallest category id. -/
def LC_CTYPE : Int := 0

/-- Modelled from the spec: largest category id in the repository's `locale.h`
(glibc-compatible numbering `LC_CTYPE = 0 .. LC_IDENTIFICATION = 12`). -/
def LC_IDENTIFICATION : Int := 12

/-- Modelled from the spec: `LC_ALL_MASK` from the repository's `locale.h`,
the OR of the twelve per-category mask bits `1 << cat` for every category
except `LC_ALL` itself (bit 6), i.e. bits 0-5 and 7-12. -/
def LC_ALL_MASK : Nat := 0x1FBF

/-- The 32-bit pattern of C's `~LC_ALL_MASK`: all bits of an `int` except the
legal category-mask bits. -/
def LC_ALL_MASK_COMPL : Nat := 0xFFFFFFFF - LC_ALL_MASK

/-- `static bool __bionic_current_locale_is_utf8 = true;` — the initial value
of the Global Locale State. -/
def bionicInitialLocaleIsUtf8 : Bool := true

/-- C `strstr(haystack, needle) != NULL`: does `needle` occur as a contiguous
substring of `haystack`? -/
def strstrFound : List Char → List Char → Bool
  | [], needle => needle.isEmpty
  | c :: t, needle => needle.isPrefixOf (c :: t) || strstrFound t needle

/-- `__is_supported_locale`: the five `strcmp` tests from the source. -/
def __is_supported_locale (locale_name : String) : Bool :=
  locale_name == "" ||
  locale_name == "C" ||
  locale_name == "C.UTF-8" ||
  locale_name == "en_US.UTF-8" ||
  locale_name == "POSIX"

/-- `__is_utf8_locale`: `*locale_name == '\0' || strstr(locale_name, "UTF-8")`. -/
def __is_utf8_locale (locale_name : String) : Bool :=
  locale_name.data.isEmpty || strstrFound locale_name.data "UTF-8".data

/-- The copy constructor `__locale_t(const __locale_t* other)`: the
`mb_cur_max` stored in the new object.  The `Loc.null` arm is unreachable in
defined executions (the C code would dereference a null pointer there). -/
def localeCtorCopy (other : Loc) (flag : Bool) : Nat :=
  match other with
  | Loc.global => if flag then 4 else 1
  | Loc.handle w => w
  | Loc.null => 0

/-- `duplocale(l)`: `new __locale_t(l)`. -/
def duplocale (l : Loc) (flag : Bool) : Loc :=
  Loc.handle (localeCtorCopy l flag)

/-- `newlocale(category_mask, locale_name, base)` (ignoring the unused `base`).
The C code folds the bad-mask and null-name tests into one `if` that returns
NULL with `errno = EINVAL`; here the null-name arm of the match plays the role
of the `locale_name == NULL` disjunct. -/
def newlocale (category_mask : Nat) (locale_name : Option String) : Except Errno Loc :=
  match locale_name with
  | none => Except.error Errno.EINVAL
  | some nm =>
    if (category_mask &&& LC_ALL_MASK_COMPL) ≠ 0 then Except.error Errno.EINVAL
    else if !(__is_supported_locale nm) then Except.error Errno.ENOENT
    else Except.ok (Loc.handle (if __is_utf8_locale nm then 4 else 1))

/-- `setlocale(category, locale_name)` acting on the global UTF-8 flag:
returns the result (canonical name, or an errno on failure) together with the
new value of `__bionic_current_locale_is_utf8`. -/
def setlocale (category : Int) (locale_name : Option String) (flag : Bool) :
    Except Errno String × Bool :=
  if category < LC_CTYPE ∨ category > LC_IDENTIFICATION then
    (Except.error Errno.EINVAL, flag)
  else
    match locale_name with
    | some nm =>
      if !(__is_supported_locale nm) then (Except.error Errno.ENOENT, flag)
      else
        let flag' := __is_utf8_locale nm
        (Except.ok (if flag' then "C.UTF-8" else "C"), flag')
    | none => (Except.ok (if flag then "C.UTF-8" else "C"), flag)

/-- `uselocale(new_locale)` acting on the calling thread's TLS slot
(`__get_bionic_tls().locale`, initially NULL): returns the old value reported
to the caller together with the new slot contents. -/
def uselocale (new_locale : Loc) (slot : Loc) : Loc × Loc :=
  let old_locale := if slot = Loc.null then Loc.global else slot
  let slot' := if new_locale ≠ Loc.null then new_locale else slot
  (old_locale, slot')

/-- `__ctype_get_mb_cur_max()`: queries the thread's locale via
`uselocale(NULL)` and resolves the sentinel through the global flag.  The
`Loc.null` arm is unreachable: `uselocale` never returns NULL. -/
def __ctype_get_mb_cur_max (slot : Loc) (flag : Bool) : Nat :=
  match (uselocale Loc.null slot).1 with
  | Loc.global => if flag then 4 else 1
  | Loc.handle w => w
  | Loc.null => 0

/-- `CHAR_MAX` on bionic's platforms (8-bit signed char). -/
def CHAR_MAX : Nat := 127

/-- The `lconv` record, with the string fields as `String` and the `char`
fields as `Nat`. -/
structure Lconv where
  decimal_point : String
  thousands_sep : String
  grouping : String
  int_curr_symbol : String
  currency_symbol : String
  mon_decimal_point : String
  mon_thousands_sep : String
  mon_grouping : String
  positive_sign : String
  negative_sign : String
  int_frac_digits : Nat
  frac_digits : Nat
  p_cs_precedes : Nat
  p_sep_by_space : Nat
  n_cs_precedes : Nat
  n_sep_by_space : Nat
  p_sign_posn : Nat
  n_sign_posn : Nat
  int_p_cs_precedes : Nat
  int_p_sep_by_space : Nat
  int_n_cs_precedes : Nat
  int_n_sep_by_space : Nat
  int_p_sign_posn : Nat
  int_n_sign_posn : Nat
deriving DecidableEq, Repr

/-- `__locale_init()`: the value `g_locale` holds after one-time
initialization. -/
def __locale_init : Lconv where
  decimal_point := "."
  thousands_sep := ""
  grouping := ""
  int_curr_symbol := ""
  currency_symbol := ""
  mon_decimal_point := ""
  mon_thousands_sep := ""
  mon_grouping := ""
  positive_sign := ""
  negative_sign := ""
  int_frac_digits := CHAR_MAX
  frac_digits := CHAR_MAX
  p_cs_precedes := CHAR_MAX
  p_sep_by_space := CHAR_MAX
  n_cs_precedes := CHAR_MAX
  n_sep_by_space := CHAR_MAX
  p_sign_posn := CHAR_MAX
  n_sign_posn := CHAR_MAX
  int_p_cs_precedes := CHAR_MAX
  int_p_sep_by_space := CHAR_MAX
  int_n_cs_precedes := CHAR_MAX
  int_n_sep_by_space := CHAR_MAX
  int_p_sign_posn := CHAR_MAX
  int_n_sign_posn := CHAR_MAX

/-- `localeconv()`: `pthread_once(&g_locale_once, __locale_init)` then return
`&g_locale`.  The once-guard state is `Option Lconv` (`none` before the first
call); the result is the table the caller sees together with the new guard
state.  Note that `localeconv` reads no locale state: it does not take the
global UTF-8 flag. -/
def localeconv (g : Option Lconv) : Lconv × Option Lconv :=
  match g with
  | none => (__locale_init, some __locale_init)
  | some v => (v, some v)

/-- One step of the public API, as it affects the global flag, one thread's
TLS slot, and the multiset of `__locale_t` objects ever allocated.  A caller
can pass `uselocale`/`duplocale` only locale values it can actually hold: an
allocated handle, the sentinel, or NULL. -/
inductive Step : (Bool × Loc × List Loc) → (Bool × Loc × List Loc) → Prop where
  | setlocaleStep (cat : Int) (nm : Option String) (f : Bool) (sl : Loc) (hs : List Loc) :
      Step (f, sl, hs) ((setlocale cat nm f).2, sl, hs)
  | newlocaleStep (mask : Nat) (nm : Option String) (h : Loc) (f : Bool) (sl : Loc)
      (hs : List Loc) (hok : newlocale mask nm = Except.ok h) :
      Step (f, sl, hs) (f, sl, h :: hs)
  | duplocaleStep (l : Loc) (f : Bool) (sl : Loc) (hs : List Loc)
      (hmem : l ∈ hs ∨ l = Loc.global) :
      Step (f, sl, hs) (f, sl, duplocale l f :: hs)
  | uselocaleStep (nl : Loc) (f : Bool) (sl : Loc) (hs : List Loc)
      (hmem : nl ∈ hs ∨ nl = Loc.global ∨ nl = Loc.null) :
      Step (f, sl, hs) (f, (uselocale nl sl).2, hs)

/-- The process start state: UTF-8 default, empty TLS slot, no handles. -/
def initState : Bool × Loc × List Loc := (bionicInitialLocaleIsUtf8, Loc.null, [])

/-- States reachable from process start through the public API. -/
inductive Reachable : (Bool × Loc × List Loc) → Prop where
  | init : Reachable initState
  | step {s t} : Reachable s → Step s t → Reachable t

/-- A well-formed allocated handle: width 1 or 4. -/
def handleOK (l : Loc) : Prop := l = Loc.handle 1 ∨ l = Loc.handle 4

/-- The machine invariant: every allocated handle has width 1 or 4, and the
TLS slot holds NULL, the sentinel, or such a handle. -/
def MachineInv (s : Bool × Loc × List Loc) : Prop :=
  (∀ l ∈ s.2.2, handleOK l) ∧
  (s.2.1 = Loc.null ∨ s.2.1 = Loc.global ∨ handleOK s.2.1)

/- ------------------------------------------------------------------ -/
/- Helper lemmas -/
/- ------------------------------------------------------------------ -/

/-- A string is empty iff its character list is. -/
theorem stringDataNil (s : String) : s.data = [] ↔ s = "" := by
  constructor
  · intro h
    cases s
    simp_all
  · intro h
    simp [h]

/-- `strstrFound` decides list containment. -/
theorem strstrFound_iff_infix (needle haystack : List Char) :
    strstrFound haystack needle = true ↔ needle <:+: haystack := by
  induction haystack with
  | nil =>
    simp [strstrFound, List.isEmpty_iff, List.infix_nil]
  | cons c t ih =>
    simp [strstrFound, ih, List.infix_cons_iff, List.isPrefixOf_iff_prefix]

/-- Every handle `newlocale` hands out has width 1 or 4. -/
theorem newlocale_ok_handleOK {mask : Nat} {nm : Option String} {h : Loc}
    (hok : newlocale mask nm = Except.ok h) : handleOK h := by
  cases nm with
  | none => simp [newlocale] at hok
  | some s =>
    simp only [newlocale] at hok
    by_cases hm : (mask &&& LC_ALL_MASK_COMPL) ≠ 0
    · rw [if_pos hm] at hok
      exact absurd hok (by simp)
    · rw [if_neg hm] at hok
      by_cases hsup : (!__is_supported_locale s) = true
      · rw [if_pos hsup] at hok
        exact absurd hok (by simp)
      · rw [if_neg hsup] at hok
        injection hok with hh
        subst hh
        cases hu : __is_utf8_locale s <;> simp [handleOK, hu]

/-- Every handle `duplocale` hands out (from a handle it could legally be
given) has width 1 or 4. -/
theorem duplocale_handleOK {l : Loc} (flag : Bool)
    (hl : handleOK l ∨ l = Loc.global) : handleOK (duplocale l flag) := by
  rcases hl with (h | h) | h <;> subst h <;> cases flag <;>
    simp [duplocale, localeCtorCopy, handleOK]

/-- The invariant is preserved by every API step. -/
theorem inv_step {s t : Bool × Loc × List Loc} (hs : MachineInv s) (hst : Step s t) :
    MachineInv t := by
  cases hst with
  | setlocaleStep cat nm f sl hsl =>
    exact hs
  | newlocaleStep mask nm h f sl hsl hok =>
    refine ⟨?_, hs.2⟩
    intro l hl
    rcases List.mem_cons.1 hl with rfl | hmem
    · exact newlocale_ok_handleOK hok
    · exact hs.1 l hmem
  | duplocaleStep l f sl hsl hmem =>
    refine ⟨?_, hs.2⟩
    intro x hx
    rcases List.mem_cons.1 hx with rfl | hxm
    · refine duplocale_handleOK f ?_
      rcases hmem with hm | hm
      · exact Or.inl (hs.1 l hm)
      · exact Or.inr hm
    · exact hs.1 x hxm
  | uselocaleStep nl f sl hsl hmem =>
    refine ⟨hs.1, ?_⟩
    by_cases hn : nl = Loc.null
    · subst hn
      simpa [uselocale] using hs.2
    · have : (uselocale nl sl).2 = nl := by simp [uselocale, hn]
      rw [this]
      rcases hmem with hm | hm | hm
      · exact Or.inr (Or.inr (hs.1 nl hm))
      · exact Or.inr (Or.inl hm)
      · exact absurd hm hn

/-- Every reachable state satisfies the invariant. -/
theorem inv_of_reachable {s : Bool × Loc × List Loc} (h : Reachable s) : MachineInv s := by
  induction h with
  | init =>
    refine ⟨?_, Or.inl rfl⟩
    intro l hl
    simp [initState] at hl
  | step _ hst ih => exact inv_step ih hst

/-- On an invariant-satisfying state the width query yields 1 or 4. -/
theorem mb_cur_max_of_inv {s : Bool × Loc × List Loc} (h : MachineInv s) :
    __ctype_get_mb_cur_max s.2.1 s.1 = 1 ∨ __ctype_get_mb_cur_max s.2.1 s.1 = 4 := by
  rcases h.2 with h2 | h2 | h2
  · rw [h2]
    cases hf : s.1 <;> simp [__ctype_get_mb_cur_max, uselocale]
  · rw [h2]
    cases hf : s.1 <;> simp [__ctype_get_mb_cur_max, uselocale]
  · rcases h2 with h2 | h2 <;> rw [h2] <;> simp [__ctype_get_mb_cur_max, uselocale]

/-- A valid category passes `setlocale`'s range check. -/
theorem setlocale_cat_ok {category : Int} (h1 : LC_CTYPE ≤ category)
    (h2 : category ≤ LC_IDENTIFICATION) :
    ¬ (category < LC_CTYPE ∨ category > LC_IDENTIFICATION) := by
  push_neg
  exact ⟨h1, h2⟩

/- ------------------------------------------------------------------ -/
/- Claim theorems -/
/- ------------------------------------------------------------------ -/

/-- Claim C1, counterexample: the claim says `setlocale` with the empty string
as name is a pure query leaving the UTF-8 flag unchanged.  But the empty
string is a non-NULL, supported, UTF-8-selecting name: starting from flag
`false` (the "C" personality), `setlocale(LC_ALL /- any valid category -/,
"")` sets the flag to `true` and returns `"C.UTF-8"`, not the pre-call
canonical name `"C"`. -/
theorem claim_C1_counterexample :
    ¬ ((setlocale 6 (some "") false).1 = Except.ok "C" ∧
       (setlocale 6 (some "") false).2 = false) := by
  decide

/-- Claim C1 (amended): for every valid category and every flag state, calling
`setlocale` with the empty string as name succeeds, assigns the UTF-8 flag
`true` (the empty name selects the UTF-8 personality) and returns
`"C.UTF-8"`; it acts as a pure query only when the flag was already set.  The
pure query form is selected by a NULL name, not the empty string. -/
theorem claim_C1 (category : Int) (st : Bool) (h1 : LC_CTYPE ≤ category)
    (h2 : category ≤ LC_IDENTIFICATION) :
    (setlocale category (some "") st).1 = Except.ok "C.UTF-8" ∧
    (setlocale category (some "") st).2 = true := by
  have hc := setlocale_cat_ok h1 h2
  simp [setlocale, hc, __is_supported_locale, __is_utf8_locale]

/-- Claim C1, witness at category `LC_ALL` (6) and flag `false`. -/
theorem claim_C1_witness :
    (LC_CTYPE ≤ 6 ∧ (6 : Int) ≤ LC_IDENTIFICATION) ∧
    ((setlocale 6 (some "") false).1 = Except.ok "C.UTF-8" ∧
     (setlocale 6 (some "") false).2 = true) :=
  ⟨by decide, claim_C1 6 false (by decide) (by decide)⟩

/-- Claim C2: `__is_supported_locale` accepts exactly the five names
`""`, `"C"`, `"POSIX"`, `"C.UTF-8"`, `"en_US.UTF-8"`, and `__is_utf8_locale`
accepts exactly the empty string and the strings containing `"UTF-8"` as a
contiguous substring.  Both are total Lean functions, hence pure. -/
theorem claim_C2 (s : String) :
    (__is_supported_locale s = true ↔
      (s = "" ∨ s = "C" ∨ s = "POSIX" ∨ s = "C.UTF-8" ∨ s = "en_US.UTF-8")) ∧
    (__is_utf8_locale s = true ↔ (s = "" ∨ "UTF-8".data <:+: s.data)) := by
  constructor
  · simp only [__is_supported_locale, Bool.or_eq_true, beq_iff_eq]
    tauto
  · simp only [__is_utf8_locale, Bool.or_eq_true, List.isEmpty_iff,
      strstrFound_iff_infix, stringDataNil]

/-- Claim C3: with a valid category mask and a supported name, `newlocale`
succeeds and the handle's width is 4 exactly when the name selects the UTF-8
personality, else 1. -/
theorem claim_C3 (mask : Nat) (nm : String)
    (hmask : mask &&& LC_ALL_MASK_COMPL = 0)
    (hsup : __is_supported_locale nm = true) :
    newlocale mask (some nm) =
      Except.ok (Loc.handle (if __is_utf8_locale nm then 4 else 1)) := by
  simp [newlocale, hmask, hsup]

/-- Claim C3, witness: mask 0 with the UTF-8 name `"C.UTF-8"` gives width 4,
and also (directly) the non-UTF-8 name `"C"` gives width 1. -/
theorem claim_C3_witness :
    ((0 : Nat) &&& LC_ALL_MASK_COMPL = 0 ∧ __is_supported_locale "C.UTF-8" = true) ∧
    newlocale 0 (some "C.UTF-8") = Except.ok (Loc.handle 4) := by
  refine ⟨⟨by decide, by decide⟩, ?_⟩
  have h := claim_C3 0 "C.UTF-8" (by decide) (by decide)
  simpa using h

/-- Claim C4: `duplocale` never fails on the values a caller can legally
hold — the sentinel and real handles, the two cases below, both always yield a
handle.  On the `LC_GLOBAL_LOCALE` sentinel it builds a handle whose width
snapshots the current global flag (4 if UTF-8 else 1); reading that
duplicate's stored width later, under any (possibly changed) flag `st2`,
still gives the snapshot value; on a real handle it copies that handle's
width regardless of the flag. -/
theorem claim_C4 (st st2 : Bool) (w : Nat) :
    duplocale Loc.global st = Loc.handle (if st then 4 else 1) ∧
    localeCtorCopy (duplocale Loc.global st) st2 = (if st then 4 else 1) ∧
    duplocale (Loc.handle w) st2 = Loc.handle w := by
  refine ⟨rfl, ?_, rfl⟩
  cases st <;> rfl

/-- Claim C5: on a thread whose slot was never written, `uselocale(NULL)`
returns the sentinel; `uselocale(NULL)` is always a pure query (it reports the
current binding, translating an empty slot to the sentinel, and leaves the
slot untouched); `uselocale` with a non-NULL value installs it and returns
what the slot held before the call. -/
theorem claim_C5 (slot nl : Loc) (hnl : nl ≠ Loc.null) :
    uselocale Loc.null Loc.null = (Loc.global, Loc.null) ∧
    uselocale Loc.null slot = ((if slot = Loc.null then Loc.global else slot), slot) ∧
    uselocale nl slot = ((if slot = Loc.null then Loc.global else slot), nl) := by
  refine ⟨rfl, ?_, ?_⟩ <;> simp [uselocale, hnl]

/-- Claim C5, witness: installing a width-4 handle into a fresh slot returns
the sentinel and stores the handle. -/
theorem claim_C5_witness :
    (Loc.handle 4 ≠ Loc.null) ∧
    (uselocale Loc.null Loc.null = (Loc.global, Loc.null) ∧
     uselocale Loc.null Loc.null =
       ((if Loc.null = Loc.null then Loc.global else Loc.null), Loc.null) ∧
     uselocale (Loc.handle 4) Loc.null =
       ((if Loc.null = Loc.null then Loc.global else Loc.null), Loc.handle 4)) :=
  ⟨by decide, claim_C5 Loc.null (Loc.handle 4) (by decide)⟩

/-- Claim C6: for a valid category and a non-NULL name the Validator rejects,
`setlocale` fails with `ENOENT`, leaves the flag unchanged, and a subsequent
NULL-name query returns the same canonical name as a query made before the
failed call. -/
theorem claim_C6 (category : Int) (nm : String) (st : Bool)
    (h1 : LC_CTYPE ≤ category) (h2 : category ≤ LC_IDENTIFICATION)
    (hbad : __is_supported_locale nm = false) :
    (setlocale category (some nm) st).1 = Except.error Errno.ENOENT ∧
    (setlocale category (some nm) st).2 = st ∧
    (setlocale category none (setlocale category (some nm) st).2).1 =
      (setlocale category none st).1 := by
  have hc := setlocale_cat_ok h1 h2
  simp [setlocale, hc, hbad]

/-- Claim C6, witness: `setlocale(LC_ALL, "bogus")` from the UTF-8 state fails
with `ENOENT` and the next query still reports `"C.UTF-8"`. -/
theorem claim_C6_witness :
    (LC_CTYPE ≤ 6 ∧ (6 : Int) ≤ LC_IDENTIFICATION ∧
     __is_supported_locale "bogus" = false) ∧
    ((setlocale 6 (some "bogus") true).1 = Except.error Errno.ENOENT ∧
     (setlocale 6 (some "bogus") true).2 = true ∧
     (setlocale 6 none (setlocale 6 (some "bogus") true).2).1 =
       (setlocale 6 none true).1) :=
  ⟨by decide, claim_C6 6 "bogus" true (by decide) (by decide) (by decide)⟩

/-- Claim C7: a category mask with a bit outside `LC_ALL_MASK` makes
`newlocale` fail with `EINVAL` for every name, absent, valid or invalid; and
an absent (NULL) name makes it fail with `EINVAL` for every mask. -/
theorem claim_C7 (mask : Nat) (nm : Option String)
    (hbad : mask &&& LC_ALL_MASK_COMPL ≠ 0) :
    newlocale mask nm = Except.error Errno.EINVAL ∧
    (∀ m : Nat, newlocale m none = Except.error Errno.EINVAL) := by
  refine ⟨?_, fun m => rfl⟩
  cases nm with
  | none => rfl
  | some s => simp [newlocale, hbad]

/-- Claim C7, witness: mask bit 6 (the `LC_ALL` position, outside
`LC_ALL_MASK`) with the perfectly valid name `"C"` still fails with
`EINVAL`. -/
theorem claim_C7_witness :
    ((64 : Nat) &&& LC_ALL_MASK_COMPL ≠ 0) ∧
    (newlocale 64 (some "C") = Except.error Errno.EINVAL ∧
     (∀ m : Nat, newlocale m none = Except.error Errno.EINVAL)) :=
  ⟨by decide, claim_C7 64 (some "C") (by decide)⟩

/-- Claim C8: the format table has `decimal_point = "."`, every other textual
field `""`, and every numeric field `CHAR_MAX`; `localeconv` consults no
locale state (its definition takes none), and a repeated call returns the very
same fully-initialized record and guard state. -/
theorem claim_C8 :
    (localeconv none).1.decimal_point = "." ∧
    (localeconv none).1.thousands_sep = "" ∧
    (localeconv none).1.grouping = "" ∧
    (localeconv none).1.int_curr_symbol = "" ∧
    (localeconv none).1.currency_symbol = "" ∧
    (localeconv none).1.mon_decimal_point = "" ∧
    (localeconv none).1.mon_thousands_sep = "" ∧
    (localeconv none).1.mon_grouping = "" ∧
    (localeconv none).1.positive_sign = "" ∧
    (localeconv none).1.negative_sign = "" ∧
    (localeconv none).1.int_frac_digits = CHAR_MAX ∧
    (localeconv none).1.frac_digits = CHAR_MAX ∧
    (localeconv none).1.p_cs_precedes = CHAR_MAX ∧
    (localeconv none).1.p_sep_by_space = CHAR_MAX ∧
    (localeconv none).1.n_cs_precedes = CHAR_MAX ∧
    (localeconv none).1.n_sep_by_space = CHAR_MAX ∧
    (localeconv none).1.p_sign_posn = CHAR_MAX ∧
    (localeconv none).1.n_sign_posn = CHAR_MAX ∧
    (localeconv none).1.int_p_cs_precedes = CHAR_MAX ∧
    (localeconv none).1.int_p_sep_by_space = CHAR_MAX ∧
    (localeconv none).1.int_n_cs_precedes = CHAR_MAX ∧
    (localeconv none).1.int_n_sep_by_space = CHAR_MAX ∧
    (localeconv none).1.int_p_sign_posn = CHAR_MAX ∧
    (localeconv none).1.int_n_sign_posn = CHAR_MAX ∧
    localeconv (localeconv none).2 = localeconv none := by
  decide

/-- Claim C9: in every state reachable through the public API, the width query
`__ctype_get_mb_cur_max` returns 1 or 4, and every handle ever produced by
`newlocale` or `duplocale` has width 1 or 4 (immutable by construction: `Loc`
handles are values). -/
theorem claim_C9 (s : Bool × Loc × List Loc) (hs : Reachable s) :
    (__ctype_get_mb_cur_max s.2.1 s.1 = 1 ∨ __ctype_get_mb_cur_max s.2.1 s.1 = 4) ∧
    (∀ l ∈ s.2.2, l = Loc.handle 1 ∨ l = Loc.handle 4) := by
  have hinv := inv_of_reachable hs
  exact ⟨mb_cur_max_of_inv hinv, hinv.1⟩

/-- Claim C9, witness at the initial state. -/
theorem claim_C9_witness :
    (__ctype_get_mb_cur_max initState.2.1 initState.1 = 1 ∨
     __ctype_get_mb_cur_max initState.2.1 initState.1 = 4) ∧
    (∀ l ∈ initState.2.2, l = Loc.handle 1 ∨ l = Loc.handle 4) :=
  claim_C9 initState Reachable.init

/-- Claim C10: for every valid category and flag state, `setlocale` with a
NULL name is the pure query form: it returns the current canonical name
(`"C.UTF-8"` when the UTF-8 flag is set, else `"C"`) and leaves the flag
unchanged. -/
theorem claim_C10 (category : Int) (st : Bool) (h1 : LC_CTYPE ≤ category)
    (h2 : category ≤ LC_IDENTIFICATION) :
    (setlocale category none st).1 =
      Except.ok (if st then "C.UTF-8" else "C") ∧
    (setlocale category none st).2 = st := by
  have hc := setlocale_cat_ok h1 h2
  simp [setlocale, hc]

/-- Claim C10, witness at category 0 (`LC_CTYPE`) and flag `false`. -/
theorem claim_C10_witness :
    (LC_CTYPE ≤ 0 ∧ (0 : Int) ≤ LC_IDENTIFICATION) ∧
    ((setlocale 0 none false).1 = Except.ok (if false then "C.UTF-8" else "C") ∧
     (setlocale 0 none false).2 = false) :=
  ⟨by decide, claim_C10 0 false (by decide) (by decide)⟩
